import Mathlib

set_option maxRecDepth 40000

/-!
Shallow embedding of the `zarlink` connection layer
(`src/zarlink/src/connection/mod.rs`): the framing/buffering engine of a
NUL-delimited JSON RPC client. Bytes are modelled as `Nat`, the fixed-length
byte buffers (`mayheap::Vec<u8, N>` / `mayheap::String<N>`) as `List Nat`
together with explicit bound checks mirroring every Rust indexing, slicing
and subtraction operation that can panic. The socket capability and the
crate's error enum (`mod socket` / `mod error`, not part of the given
sources) are modelled from the spec at their interface boundary: a socket
read either fails with an opaque error or delivers a chunk of bytes (of at
most the length of the slice it was given), and the error taxonomy is
BufferOverflow / Serialization / Deserialization / Transport.
-/

namespace Zarlink

/-- `const BUFFER_SIZE: usize = 1024;` (connection/mod.rs line 203). -/
def BUFFER_SIZE : Nat := 1024

/-- `const MAX_BUFFER_SIZE: usize = 1024 * 1024;` (std only, line 205). -/
def MAX_BUFFER_SIZE : Nat := 1024 * 1024

/-- `const METHOD_NAME_BUFFER_SIZE: usize = 256;` (line 206). -/
def METHOD_NAME_BUFFER_SIZE : Nat := 256

/-- Modelled from the spec: the crate's error taxonomy (section 7;
`src/error.rs` is not among the given sources). `transport` carries the
opaque error of the underlying byte stream, which the core "wraps and
propagates unchanged"; it is modelled as a `Nat` token. -/
inductive Error where
  | bufferOverflow
  | serialization
  | deserialization
  | transport (e : Nat)

deriving instance DecidableEq for Except

deriving instance DecidableEq for Error

/-- Result of running a piece of the Rust code: a normal return value, an
`Err` of the crate's error type, a Rust panic (out-of-bounds index or slice,
or `usize` underflow), or exhaustion of the modelled socket-read script
(the Rust loop would keep blocking on further reads). -/
inductive Outcome (α : Type u) where
  | ok (a : α)
  | err (e : Error)
  | panicked
  | outOfReads

deriving instance DecidableEq for Outcome

/-- Modelled from the spec: one result of the socket capability's
`read(buffer) -> byte_count` (section 6; `src/connection/socket.rs` is not
among the given sources): either an opaque transport error or the chunk of
bytes the read places in the given buffer slice. -/
abbrev SockRead := Except Nat (List Nat)

/-- The `Connection` struct (lines 14-21). `sent` and `call_methods` are
ghost observation fields: `sent` records each byte sequence passed to
`socket.write`, `call_methods` records the `method` field of each `Call`
value that reached serialization. -/
structure Connection where
  read_pos : Nat
  write_buffer : List Nat
  read_buffer : List Nat
  method_name_buffer : List Nat
  sent : List (List Nat)
  call_methods : List (List Nat)

deriving instance DecidableEq for Connection

/-- `Connection::new` (lines 25-33): both I/O buffers are created with
length `BUFFER_SIZE`, zero-filled; the method-name buffer starts empty. -/
def Connection.new : Connection :=
  { read_pos := 0
    write_buffer := List.replicate BUFFER_SIZE 0
    read_buffer := List.replicate BUFFER_SIZE 0
    method_name_buffer := []
    sent := []
    call_methods := [] }

/-- The `Call` struct (lines 193-200); `method` borrows the connection's
method-name buffer. -/
structure Call (P : Type u) where
  method : List Nat
  parameters : P
  one_way : Option Bool
  more : Option Bool
  upgrade : Option Bool

/-- Overwrite `buf[pos .. pos + data.length]` with `data` (the effect of a
socket read into the subslice `&mut buf[pos..]`); callers guarantee
`pos + data.length ≤ buf.length`. -/
def writeAt (buf : List Nat) (pos : Nat) (data : List Nat) : List Nat :=
  buf.take pos ++ data ++ buf.drop (pos + data.length)

/-- The `loop` body of `Connection::read_from_socket` (lines 125-150),
run against a script of socket-read results. Each iteration:
read into `read_buffer[pos..]` (the chunk is truncated to the room left, as
a real `read` returns at most the slice's length, and a failed read
propagates via `?`); then `self.write_buffer[total_read] = b'\0'`
(line 132: an out-of-bounds index panics); then the stop test
`self.write_buffer[total_read - 1] == b'\0'` (line 134: the `usize`
subtraction underflows when `total_read == 0`); then, under the `std`
feature only, the growth check on `write_buffer` (lines 139-147). -/
def readLoop (std : Bool) (c : Connection) (pos : Nat) :
    List SockRead → Outcome Unit × Connection
  | [] => (Outcome.outOfReads, c)
  | r :: rest =>
    match r with
    | Except.error e => (Outcome.err (Error.transport e), c)
    | Except.ok chunk =>
      let written := chunk.take (c.read_buffer.length - pos)
      let bytes_read := written.length
      let c1 := { c with read_buffer := writeAt c.read_buffer pos written }
      let total_read := pos + bytes_read
      if total_read < c1.write_buffer.length then
        let c2 := { c1 with write_buffer := c1.write_buffer.set total_read 0 }
        if total_read = 0 then (Outcome.panicked, c2)
        else if c2.write_buffer.getD (total_read - 1) 0 = 0 then (Outcome.ok (), c2)
        else if std then
          if c2.write_buffer.length ≤ total_read then
            if MAX_BUFFER_SIZE ≤ total_read then (Outcome.err Error.bufferOverflow, c2)
            else
              readLoop std
                { c2 with write_buffer := c2.write_buffer ++ List.replicate BUFFER_SIZE 0 }
                (pos + bytes_read) rest
          else readLoop std c2 (pos + bytes_read) rest
        else readLoop std c2 (pos + bytes_read) rest
      else (Outcome.panicked, c1)

/-- `Connection::read_from_socket` (lines 118-153): skip everything when
`read_pos > 0`, otherwise run the read loop starting at `pos = read_pos`. -/
def Connection.read_from_socket (c : Connection) (std : Bool)
    (reads : List SockRead) : Outcome Unit × Connection :=
  if 0 < c.read_pos then (Outcome.ok (), c)
  else readLoop std c c.read_pos reads

/-- The framing-extraction part of `Connection::receive_reply`
(lines 94-105): ensure buffered, `memchr` for the first NUL in
`read_buffer[read_pos..]` (the `unwrap` panics when there is none), the
slice `read_buffer[read_pos..null_index]` (panics unless
`read_pos ≤ null_index ≤ len`), the index `read_buffer[null_index + 1]`
(panics when out of bounds), and the cursor update. Note the source uses
`null_index`, an index relative to `read_pos`, as an absolute index in both
the slice and the cursor update. -/
def Connection.extractDoc (c : Connection) (std : Bool)
    (reads : List SockRead) : Outcome (List Nat) × Connection :=
  match c.read_from_socket std reads with
  | (Outcome.ok _, c1) =>
    match (c1.read_buffer.drop c1.read_pos).findIdx? (fun b => b == 0) with
    | none => (Outcome.panicked, c1)
    | some null_index =>
      if c1.read_pos ≤ null_index ∧ null_index ≤ c1.read_buffer.length then
        let buffer := (c1.read_buffer.take null_index).drop c1.read_pos
        if null_index + 1 < c1.read_buffer.length then
          if c1.read_buffer.getD (null_index + 1) 0 = 0 then
            (Outcome.ok buffer, { c1 with read_pos := 0 })
          else
            (Outcome.ok buffer, { c1 with read_pos := null_index + 1 })
        else (Outcome.panicked, c1)
      else (Outcome.panicked, c1)
  | (Outcome.err e, c1) => (Outcome.err e, c1)
  | (Outcome.panicked, c1) => (Outcome.panicked, c1)
  | (Outcome.outOfReads, c1) => (Outcome.outOfReads, c1)

/-- The decode dispatch of `Connection::receive_reply` (lines 107-114):
try the error type first; on its failure decode a success `Reply`, whose
failure surfaces as the Deserialization condition (the classification of a
codec failure as Deserialization is modelled from spec section 7, the
crate's error module not being among the sources). The decoders stand for
`from_slice::<ReplyError>` and `from_slice::<Reply<_>>`. -/
def decodeDoc {E R : Type} (decErr : List Nat → Option E)
    (decOk : List Nat → Option R) (d : List Nat) : Outcome (Except E R) :=
  match decErr d with
  | some e => Outcome.ok (Except.error e)
  | none =>
    match decOk d with
    | some r => Outcome.ok (Except.ok r)
    | none => Outcome.err Error.deserialization

/-- `Connection::receive_reply` (lines 87-115): framing extraction followed
by the two-shape decode of the extracted document. -/
def Connection.receive_reply {E R : Type} (c : Connection) (std : Bool)
    (decErr : List Nat → Option E) (decOk : List Nat → Option R)
    (reads : List SockRead) : Outcome (Except E R) × Connection :=
  match c.extractDoc std reads with
  | (Outcome.ok d, c1) => (decodeDoc decErr decOk d, c1)
  | (Outcome.err e, c1) => (Outcome.err e, c1)
  | (Outcome.panicked, c1) => (Outcome.panicked, c1)
  | (Outcome.outOfReads, c1) => (Outcome.outOfReads, c1)

/-- `Connection::push_method_name` (lines 155-171): three fallible pushes
onto the `String<METHOD_NAME_BUFFER_SIZE>` — `interface`, `'.'` (byte 46),
`method` — each failing with BufferOverflow when it would exceed the fixed
capacity, and each successful push persisting even when a later one fails.
The buffer is never cleared. -/
def Connection.push_method_name (c : Connection) (interface method : List Nat) :
    Except Error Unit × Connection :=
  if c.method_name_buffer.length + interface.length ≤ METHOD_NAME_BUFFER_SIZE then
    let c1 := { c with method_name_buffer := c.method_name_buffer ++ interface }
    if c1.method_name_buffer.length + 1 ≤ METHOD_NAME_BUFFER_SIZE then
      let c2 := { c1 with method_name_buffer := c1.method_name_buffer ++ [46] }
      if c2.method_name_buffer.length + method.length ≤ METHOD_NAME_BUFFER_SIZE then
        (Except.ok (), { c2 with method_name_buffer := c2.method_name_buffer ++ method })
      else (Except.error Error.bufferOverflow, c2)
    else (Except.error Error.bufferOverflow, c1)
  else (Except.error Error.bufferOverflow, c)

/-- `Connection::send_call` (lines 36-60): push the method name (an error
returns before anything else happens); build the `Call` borrowing the
method-name buffer; `to_slice` it into the write buffer (`enc` stands for
the codec; failure to fit is the Serialization condition); then
`socket.write(&self.write_buffer)` — the whole buffer, whose result is
scripted by `w` and whose failure is the Transport condition. -/
def Connection.send_call {P : Type} (c : Connection) (enc : Call P → List Nat)
    (interface method : List Nat) (parameters : P)
    (one_way more upgrade : Option Bool) (w : Except Nat Unit) :
    Except Error Unit × Connection :=
  match c.push_method_name interface method with
  | (Except.error e, c1) => (Except.error e, c1)
  | (Except.ok _, c1) =>
    let call : Call P :=
      { method := c1.method_name_buffer
        parameters := parameters
        one_way := one_way
        more := more
        upgrade := upgrade }
    let bytes := enc call
    if bytes.length ≤ c1.write_buffer.length then
      let c2 := { c1 with
        write_buffer := bytes ++ c1.write_buffer.drop bytes.length
        call_methods := c1.call_methods ++ [call.method] }
      match w with
      | Except.ok _ => (Except.ok (), { c2 with sent := c2.sent ++ [c2.write_buffer] })
      | Except.error e => (Except.error (Error.transport e), c2)
    else (Except.error Error.serialization, c1)

/-- Run a sequence of `send_call`s (one per `(interface, method)` pair, unit
parameters, no flags, every transport write succeeding), stopping at the
first error. -/
def sendSeq (enc : Call Unit → List Nat) (c : Connection) :
    List (List Nat × List Nat) → Except Error Connection
  | [] => Except.ok c
  | p :: rest =>
    match c.send_call enc p.1 p.2 () none none none (Except.ok ()) with
    | (Except.ok _, c1) => sendSeq enc c1 rest
    | (Except.error e, _) => Except.error e

/-- Expected method fields: starting from buffer contents `acc`, the n-th
entry is `acc` followed by the first n fully-qualified names
`interface ++ "." ++ method` concatenated. -/
def methodsRec (acc : List Nat) : List (List Nat × List Nat) → List (List Nat)
  | [] => []
  | p :: rest =>
    let acc1 := acc ++ p.1 ++ [46] ++ p.2
    acc1 :: methodsRec acc1 rest

/-- Total length of the fully-qualified names of a call sequence. -/
def namesLen (ps : List (List Nat × List Nat)) : Nat :=
  (ps.map (fun p => p.1.length + 1 + p.2.length)).sum

/-- Decoder that rejects every document (an error decoder faced only with
success replies). -/
def decNone : List Nat → Option (List Nat) := fun _ => none

/-- Decoder that accepts every document, returning its bytes. -/
def decId : List Nat → Option (List Nat) := fun d => some d

/-- Codec producing a fixed encoding for every call. -/
def encConst (bs : List Nat) : Call Unit → List Nat := fun _ => bs

/-- A connection right after a `send_call` whose encoding was the seven
bytes of a small JSON document: the write buffer holds those bytes followed
by the zeros of the fresh buffer. -/
def connAfterJson : Connection :=
  { Connection.new with
    write_buffer := [123, 34, 120, 34, 58, 49, 125] ++ List.replicate 1017 0 }

/-! ## Claim theorems -/

/-- C1: the code fails the claim. On the batch `{}\0[]\0\0` delivered by a
single transport read, the first `receive_reply` returns the first document
`{}` and moves the cursor to 3, but the second invocation panics (the slice
`read_buffer[3..2]`, the NUL index having been computed relative to the
cursor and then used as an absolute index) instead of returning the second
document `[]` and resetting the cursor to 0. -/
theorem c1_batched_replies_second_call_panics :
    (Connection.new.receive_reply true decNone decId
        [Except.ok [123, 125, 0, 91, 93, 0, 0]]).1 = Outcome.ok (Except.ok [123, 125])
    ∧ (Connection.new.receive_reply true decNone decId
        [Except.ok [123, 125, 0, 91, 93, 0, 0]]).2.read_pos = 3
    ∧ ((Connection.new.receive_reply true decNone decId
        [Except.ok [123, 125, 0, 91, 93, 0, 0]]).2.receive_reply true decNone decId []).1
      = (Outcome.panicked : Outcome (Except (List Nat) (List Nat))) := by
  refine ⟨by decide, by decide, by decide⟩

/-- C2: the code fails the claim. The NUL sentinel is written into (and the
stop test reads) `write_buffer`, not the read buffer. On a fresh connection a
read delivering the incomplete message bytes `hi` (no NUL anywhere) makes the
loop stop successfully — the byte of the read buffer before the sentinel
position is 105, not NUL — because the pristine write buffer is all zeros;
conversely, on a connection whose write buffer holds a previous encoded call,
a read delivering the complete message `hi\0` does not stop the loop (the
socket script runs out), and the sentinel lands in the write buffer: its
byte 3, previously 34, becomes 0. -/
theorem c2_sentinel_written_to_write_buffer :
    (Connection.new.read_from_socket true [Except.ok [104, 105]]).1 = Outcome.ok ()
    ∧ (Connection.new.read_from_socket true [Except.ok [104, 105]]).2.read_buffer.getD 1 0 = 105
    ∧ (connAfterJson.read_from_socket true [Except.ok [104, 105, 0]]).1 = Outcome.outOfReads
    ∧ connAfterJson.write_buffer.getD 3 0 = 34
    ∧ (connAfterJson.read_from_socket true [Except.ok [104, 105, 0]]).2.write_buffer.getD 3 0 = 0 := by
  refine ⟨by decide, by decide, by decide, by decide, by decide⟩

/-- C3: the code fails the claim. In the growable (`std`) configuration,
filling the read buffer (1024 non-NUL bytes in one read) does not grow the
read buffer and does not return BufferOverflow: the indexing
`write_buffer[total_read]` panics before the growth check is ever reached
(and that check, lines 139-147, targets the write buffer anyway). The read
buffer still has its original `BUFFER_SIZE` length at the panic. -/
theorem c3_growth_unreachable_panics_instead :
    (Connection.new.read_from_socket true [Except.ok (List.replicate 1024 1)]).1
      = Outcome.panicked
    ∧ (Connection.new.read_from_socket true
        [Except.ok (List.replicate 1024 1)]).2.read_buffer.length = BUFFER_SIZE
    ∧ (Connection.new.read_from_socket true
        [Except.ok (List.replicate 1024 1)]).2.write_buffer.length = BUFFER_SIZE := by
  refine ⟨by decide, by decide, by decide⟩

/-- C4: the code fails the claim. In the fixed-capacity (no-std)
configuration an incoming message that fills the read buffer before any NUL
boundary makes `read_from_socket` panic on the out-of-bounds index
`write_buffer[1024]`, not fail with BufferOverflow (no BufferOverflow path
exists outside the `std` feature). -/
theorem c4_fixed_mode_panics_not_overflow :
    (Connection.new.read_from_socket false [Except.ok (List.replicate 1024 1)]).1
      = Outcome.panicked
    ∧ (Connection.new.read_from_socket false [Except.ok (List.replicate 1024 1)]).1
      ≠ Outcome.err Error.bufferOverflow := by
  refine ⟨by decide, by decide⟩

/-- C5: the code fails the claim. A transport read that returns zero bytes
on a fresh connection (cursor 0) drives `total_read` to 0 and the stop test
`write_buffer[total_read - 1]` underflows the `usize` subtraction, a panic. -/
theorem c5_zero_byte_read_underflows :
    (Connection.new.read_from_socket true [Except.ok []]).1 = Outcome.panicked := by
  decide

/-- The read loop never touches the cursor: whatever branch it exits
through (success, transport error, panic, or running out of scripted
reads), the returned connection's `read_pos` is the one it started with;
only the local `pos` moves. -/
theorem readLoop_read_pos (std : Bool) :
    ∀ (reads : List SockRead) (c : Connection) (pos : Nat),
      ((readLoop std c pos reads).2).read_pos = c.read_pos := by
  intro reads
  induction reads with
  | nil => intro c pos; rfl
  | cons r rest ih =>
    intro c pos
    cases r with
    | error e => rfl
    | ok chunk =>
      simp only [readLoop]
      repeat' split
      all_goals first | rfl | (rw [ih])

/-- C9: confirmed. A failing transport read at any iteration of the
ensure-buffered loop returns the Transport condition (the opaque error
wrapped unchanged) with the connection exactly as that iteration found it;
`read_from_socket` leaves `read_pos` unchanged on every outcome; and on a
fresh cursor the failure of the first read is propagated to the caller with
the whole connection untouched. -/
theorem c9_transport_failure_preserves_cursor :
    (∀ (std : Bool) (c : Connection) (pos e : Nat) (rest : List SockRead),
        readLoop std c pos (Except.error e :: rest) = (Outcome.err (Error.transport e), c))
    ∧ (∀ (std : Bool) (c : Connection) (reads : List SockRead),
        (c.read_from_socket std reads).2.read_pos = c.read_pos)
    ∧ (∀ (std : Bool) (c : Connection) (e : Nat) (rest : List SockRead),
        c.read_pos = 0 →
          c.read_from_socket std (Except.error e :: rest)
            = (Outcome.err (Error.transport e), c)) := by
  refine ⟨fun std c pos e rest => rfl, ?_, ?_⟩
  · intro std c reads
    unfold Connection.read_from_socket
    split
    · rfl
    · exact readLoop_read_pos std reads c c.read_pos
  · intro std c e rest h
    simp [Connection.read_from_socket, h, readLoop]

/-- Witness for C9 at a concrete input: a fresh connection whose first
transport read fails with the opaque error 7. -/
theorem c9_transport_failure_preserves_cursor_check :
    Connection.new.read_pos = 0
    ∧ Connection.new.read_from_socket true [Except.error 7]
        = (Outcome.err (Error.transport 7), Connection.new) :=
  ⟨rfl, c9_transport_failure_preserves_cursor.2.2 true Connection.new 7 [] rfl⟩

/-- C8: confirmed. Whenever framing extraction yields a document, the code
decodes it as the error type first and returns the error variant on
success; on its failure it decodes a success `Reply`; and when that second
decode also fails the result is the Deserialization condition — returned to
the caller, not retried and not conflated with the error variant. -/
theorem c8_error_decode_first {E R : Type} (decErr : List Nat → Option E)
    (decOk : List Nat → Option R) (std : Bool) (c c1 : Connection)
    (reads : List SockRead) (d : List Nat)
    (hx : c.extractDoc std reads = (Outcome.ok d, c1)) :
    (∀ e, decErr d = some e →
        c.receive_reply std decErr decOk reads = (Outcome.ok (Except.error e), c1))
    ∧ (∀ r, decErr d = none → decOk d = some r →
        c.receive_reply std decErr decOk reads = (Outcome.ok (Except.ok r), c1))
    ∧ (decErr d = none → decOk d = none →
        c.receive_reply std decErr decOk reads = (Outcome.err Error.deserialization, c1)) := by
  refine ⟨?_, ?_, ?_⟩
  · intro e he
    unfold Connection.receive_reply
    rw [hx]
    simp [decodeDoc, he]
  · intro r he ho
    unfold Connection.receive_reply
    rw [hx]
    simp [decodeDoc, he, ho]
  · intro he ho
    unfold Connection.receive_reply
    rw [hx]
    simp [decodeDoc, he, ho]

/-- Witness for C8 at a concrete input: the single-message batch
`{}\0\0`, an error decoder that rejects everything and a success decoder
that accepts the document. -/
theorem c8_error_decode_first_check :
    Connection.new.receive_reply true decNone decId [Except.ok [123, 125, 0, 0]]
      = (Outcome.ok (Except.ok [123, 125]),
         (Connection.new.extractDoc true [Except.ok [123, 125, 0, 0]]).2) :=
  (c8_error_decode_first decNone decId true Connection.new
      ((Connection.new.extractDoc true [Except.ok [123, 125, 0, 0]]).2)
      [Except.ok [123, 125, 0, 0]] [123, 125] (by rfl)).2.1 [123, 125] rfl rfl

/-- A fully-qualified name too long for the remaining capacity makes
`push_method_name` fail with BufferOverflow, the connection changed at most
in the method-name buffer (successful component pushes persist). -/
theorem push_method_name_overflow (c : Connection) (interface method : List Nat)
    (hlen : METHOD_NAME_BUFFER_SIZE
        < c.method_name_buffer.length + (interface.length + 1 + method.length)) :
    ∃ mb, c.push_method_name interface method
      = (Except.error Error.bufferOverflow, { c with method_name_buffer := mb }) := by
  unfold Connection.push_method_name
  by_cases h1 : c.method_name_buffer.length + interface.length ≤ METHOD_NAME_BUFFER_SIZE
  · rw [if_pos h1]
    by_cases h2 : (c.method_name_buffer ++ interface).length + 1 ≤ METHOD_NAME_BUFFER_SIZE
    · rw [if_pos h2]
      have h3 : ¬ ((c.method_name_buffer ++ interface ++ [46]).length + method.length
          ≤ METHOD_NAME_BUFFER_SIZE) := by
        simp only [List.length_append, List.length_cons, List.length_nil]
        omega
      rw [if_neg h3]
      exact ⟨_, rfl⟩
    · rw [if_neg h2]
      exact ⟨_, rfl⟩
  · rw [if_neg h1]
    exact ⟨_, rfl⟩

/-- `send_call` under an oversized accumulated name: the push failure
returns BufferOverflow before the codec or the socket is touched. -/
theorem send_call_overflow {P : Type} (enc : Call P → List Nat) (c : Connection)
    (interface method : List Nat) (p : P) (ow mo up : Option Bool) (w : Except Nat Unit)
    (hlen : METHOD_NAME_BUFFER_SIZE
        < c.method_name_buffer.length + (interface.length + 1 + method.length)) :
    ∃ mb, c.send_call enc interface method p ow mo up w
      = (Except.error Error.bufferOverflow, { c with method_name_buffer := mb }) := by
  obtain ⟨mb, hp⟩ := push_method_name_overflow c interface method hlen
  refine ⟨mb, ?_⟩
  unfold Connection.send_call
  rw [hp]

/-- C7: confirmed. Whenever `interface.method` alone exceeds the
method-name scratch buffer's capacity, `send_call` fails with
BufferOverflow — for every starting state, codec, parameter value, flags
and transport behaviour — and nothing reaches the transport: the ghost
transcript of socket writes, the write buffer and the ghost record of
serialized calls are all unchanged. -/
theorem c7_oversized_name_fails_without_transmit {P : Type} (enc : Call P → List Nat)
    (c : Connection) (interface method : List Nat) (p : P)
    (ow mo up : Option Bool) (w : Except Nat Unit)
    (h : METHOD_NAME_BUFFER_SIZE < interface.length + 1 + method.length) :
    (c.send_call enc interface method p ow mo up w).1 = Except.error Error.bufferOverflow
    ∧ (c.send_call enc interface method p ow mo up w).2.sent = c.sent
    ∧ (c.send_call enc interface method p ow mo up w).2.write_buffer = c.write_buffer
    ∧ (c.send_call enc interface method p ow mo up w).2.call_methods = c.call_methods := by
  obtain ⟨mb, hs⟩ := send_call_overflow enc c interface method p ow mo up w (by omega)
  rw [hs]
  exact ⟨rfl, rfl, rfl, rfl⟩

/-- Witness for C7 at a concrete input: a 256-byte interface name plus a
one-byte method on a fresh connection. -/
theorem c7_oversized_name_fails_without_transmit_check :
    (METHOD_NAME_BUFFER_SIZE < (List.replicate 256 97).length + 1 + [98].length)
    ∧ (Connection.new.send_call (encConst []) (List.replicate 256 97) [98] ()
        none none none (Except.ok ())).1 = Except.error Error.bufferOverflow
    ∧ (Connection.new.send_call (encConst []) (List.replicate 256 97) [98] ()
        none none none (Except.ok ())).2.sent = Connection.new.sent :=
  ⟨by decide,
   (c7_oversized_name_fails_without_transmit (encConst []) Connection.new
      (List.replicate 256 97) [98] () none none none (Except.ok ()) (by decide)).1,
   (c7_oversized_name_fails_without_transmit (encConst []) Connection.new
      (List.replicate 256 97) [98] () none none none (Except.ok ()) (by decide)).2.1⟩

/-- Unfolding lemma for the total length of a call sequence's names. -/
theorem namesLen_cons (p : List Nat × List Nat) (rest : List (List Nat × List Nat)) :
    namesLen (p :: rest) = p.1.length + 1 + p.2.length + namesLen rest := by
  simp [namesLen]

/-- A `send_call` whose full name still fits succeeds and appends
`interface ++ "." ++ method` to the method-name buffer, recording a `Call`
whose method field is the whole accumulated buffer; the write buffer keeps
its length. -/
theorem send_call_unit_ok (enc : Call Unit → List Nat) (c : Connection) (i m : List Nat)
    (hfit : ∀ call, (enc call).length ≤ BUFFER_SIZE)
    (hwb : c.write_buffer.length = BUFFER_SIZE)
    (hlen : c.method_name_buffer.length + (i.length + 1 + m.length)
        ≤ METHOD_NAME_BUFFER_SIZE) :
    ∃ wb st, c.send_call enc i m () none none none (Except.ok ())
      = (Except.ok (), { c with
          method_name_buffer := c.method_name_buffer ++ i ++ [46] ++ m
          write_buffer := wb
          call_methods := c.call_methods ++ [c.method_name_buffer ++ i ++ [46] ++ m]
          sent := st })
      ∧ wb.length = BUFFER_SIZE := by
  unfold Connection.send_call Connection.push_method_name
  have h1 : c.method_name_buffer.length + i.length ≤ METHOD_NAME_BUFFER_SIZE := by omega
  rw [if_pos h1]
  have h2 : (c.method_name_buffer ++ i).length + 1 ≤ METHOD_NAME_BUFFER_SIZE := by
    simp only [List.length_append]; omega
  rw [if_pos h2]
  have h3 : (c.method_name_buffer ++ i ++ [46]).length + m.length
      ≤ METHOD_NAME_BUFFER_SIZE := by
    simp only [List.length_append, List.length_cons, List.length_nil]; omega
  rw [if_pos h3]
  dsimp only
  have h4 : (enc { method := c.method_name_buffer ++ i ++ [46] ++ m, parameters := ()
                   one_way := none, more := none, upgrade := none }).length
      ≤ c.write_buffer.length := hwb ▸ hfit _
  rw [if_pos h4]
  refine ⟨_, _, rfl, ?_⟩
  simp only [List.length_append, List.length_drop]
  have := hfit { method := c.method_name_buffer ++ i ++ [46] ++ m, parameters := ()
                 one_way := none, more := none, upgrade := none }
  omega

/-- Running a call sequence from any state whose buffer lengths satisfy the
construction invariants: when the accumulated names still fit the
method-name capacity the run succeeds and the recorded method fields are
the running concatenations; when they exceed it the run fails with
BufferOverflow. -/
theorem sendSeq_spec (enc : Call Unit → List Nat)
    (hfit : ∀ call, (enc call).length ≤ BUFFER_SIZE) :
    ∀ (ps : List (List Nat × List Nat)) (c : Connection),
      c.write_buffer.length = BUFFER_SIZE →
      c.method_name_buffer.length ≤ METHOD_NAME_BUFFER_SIZE →
      ((c.method_name_buffer.length + namesLen ps ≤ METHOD_NAME_BUFFER_SIZE →
          ∃ c1, sendSeq enc c ps = Except.ok c1
            ∧ c1.call_methods = c.call_methods ++ methodsRec c.method_name_buffer ps)
       ∧ (METHOD_NAME_BUFFER_SIZE < c.method_name_buffer.length + namesLen ps →
          sendSeq enc c ps = Except.error Error.bufferOverflow)) := by
  intro ps
  induction ps with
  | nil =>
    intro c hwb hmb
    constructor
    · intro _
      exact ⟨c, rfl, by simp [methodsRec]⟩
    · intro hgt
      simp only [namesLen, List.map_nil, List.sum_nil] at hgt
      omega
  | cons p rest ih =>
    intro c hwb hmb
    by_cases hstep : c.method_name_buffer.length + (p.1.length + 1 + p.2.length)
        ≤ METHOD_NAME_BUFFER_SIZE
    · obtain ⟨wb, st, hs, hwb1⟩ := send_call_unit_ok enc c p.1 p.2 hfit hwb hstep
      have hmb1 : (c.method_name_buffer ++ p.1 ++ [46] ++ p.2).length
          ≤ METHOD_NAME_BUFFER_SIZE := by
        simp only [List.length_append, List.length_cons, List.length_nil]; omega
      obtain ⟨ih1, ih2⟩ := ih ({ c with
          method_name_buffer := c.method_name_buffer ++ p.1 ++ [46] ++ p.2
          write_buffer := wb
          call_methods := c.call_methods ++ [c.method_name_buffer ++ p.1 ++ [46] ++ p.2]
          sent := st }) hwb1 hmb1
      constructor
      · intro hle
        rw [namesLen_cons] at hle
        obtain ⟨c1, hrun, hcm⟩ := ih1 (by
          simp only [List.length_append, List.length_cons, List.length_nil]; omega)
        refine ⟨c1, ?_, ?_⟩
        · simp only [sendSeq]
          rw [hs]
          exact hrun
        · rw [hcm]
          simp [methodsRec, List.append_assoc]
      · intro hgt
        rw [namesLen_cons] at hgt
        have hrec := ih2 (by
          simp only [List.length_append, List.length_cons, List.length_nil]; omega)
        simp only [sendSeq]
        rw [hs]
        exact hrec
    · obtain ⟨mb, hs⟩ := send_call_overflow enc c p.1 p.2 () none none none
        (Except.ok ()) (by omega)
      constructor
      · intro hle
        rw [namesLen_cons] at hle
        omega
      · intro _
        simp only [sendSeq]
        rw [hs]

/-- C6: confirmed. The method-name buffer is never cleared between calls:
whenever a whole sequence of `send_call`s from a fresh connection succeeds,
the n-th serialized `Call`'s method field is the concatenation of all n
pushed fully-qualified names; and any sequence whose accumulated name
length exceeds the 256-byte capacity fails with BufferOverflow (even when
every individual name fits), provided encodings fit the write buffer. -/
theorem c6_method_name_buffer_accumulates (enc : Call Unit → List Nat)
    (ps : List (List Nat × List Nat))
    (hfit : ∀ call, (enc call).length ≤ BUFFER_SIZE) :
    ((sendSeq enc Connection.new ps).isOk = true →
        (sendSeq enc Connection.new ps).map Connection.call_methods
          = Except.ok (methodsRec [] ps))
    ∧ (METHOD_NAME_BUFFER_SIZE < namesLen ps →
        sendSeq enc Connection.new ps = Except.error Error.bufferOverflow) := by
  have hwb : Connection.new.write_buffer.length = BUFFER_SIZE := by
    simp [Connection.new]
  have hmb : Connection.new.method_name_buffer.length ≤ METHOD_NAME_BUFFER_SIZE := by
    simp [Connection.new, METHOD_NAME_BUFFER_SIZE]
  have h := sendSeq_spec enc hfit ps Connection.new hwb hmb
  have hz : Connection.new.method_name_buffer.length = 0 := rfl
  constructor
  · intro hok
    by_cases hle : Connection.new.method_name_buffer.length + namesLen ps
        ≤ METHOD_NAME_BUFFER_SIZE
    · obtain ⟨c1, hrun, hcm⟩ := h.1 hle
      rw [hrun]
      simp only [Except.map]
      rw [hcm]
      rfl
    · have hb := h.2 (by omega)
      rw [hb] at hok
      simp [Except.isOk, Except.toBool] at hok
  · intro hgt
    exact h.2 (by omega)

/-- Witness for C6 at a concrete input: two calls whose names are each 130
bytes (well within the 256-byte capacity individually) but 260 bytes
together, with a codec whose encodings always fit. -/
theorem c6_method_name_buffer_accumulates_check :
    (METHOD_NAME_BUFFER_SIZE
        < namesLen [(List.replicate 128 97, [98]), (List.replicate 128 97, [98])])
    ∧ sendSeq (encConst []) Connection.new
        [(List.replicate 128 97, [98]), (List.replicate 128 97, [98])]
      = Except.error Error.bufferOverflow :=
  ⟨by decide,
   (c6_method_name_buffer_accumulates (encConst [])
      [(List.replicate 128 97, [98]), (List.replicate 128 97, [98])]
      (fun _ => by simp [encConst, BUFFER_SIZE])).2 (by decide)⟩

/-- C10: the code fails the claim. A successful `send_call` whose encoder
produced a two-byte message passes the whole 1024-byte write buffer (the
two encoded bytes followed by 1022 residual bytes) to `socket.write`, not
just the occupied portion. The transport-failure half of the claim does
hold: a failing write surfaces as the Transport condition, the opaque
error wrapped unchanged. -/
theorem c10_whole_buffer_written :
    (Connection.new.send_call (encConst [104, 105]) [97] [98] () none none none
        (Except.ok ())).1 = Except.ok ()
    ∧ (Connection.new.send_call (encConst [104, 105]) [97] [98] () none none none
        (Except.ok ())).2.sent.map List.length = [1024]
    ∧ (encConst [104, 105]
        { method := [97, 46, 98], parameters := (),
          one_way := none, more := none, upgrade := none }).length = 2
    ∧ (Connection.new.send_call (encConst [104, 105]) [97] [98] () none none none
        (Except.error 5)).1 = Except.error (Error.transport 5) := by
  refine ⟨by decide, by decide, by decide, by decide⟩

end Zarlink
